import Mathlib

/-!
Verification of the channel-resolution, stability-classification, deployment
and pipeline-orchestration logic of the `bob.devtools` CI tooling.

Each definition is a shallow embedding of the corresponding Python function,
translated clause by clause from the sources:

* `ci/bootstrap.py`            — `get_local_channels` and the channel list
                                 assembled by the bootstrap main program;
* `bob/devtools/ci.py`         — `is_master`, `is_stable` (including the
                                 `distutils.version.LooseVersion` tokenizer
                                 they rely on);
* `bob/devtools/scripts/ci.py` — `base_deploy`, `deploy`, `pypi`,
                                 `base_build`, `nightlies`;
* `bob/devtools/scripts/build.py` — the decision/side-effect structure of
                                 `build`;
* `bob/devtools/scripts/dav.py`   — `rmtree`, `upload`.

External collaborators (conda, git, the WebDAV client) are modelled by their
observable interface: stores are lists of resource names, effects are recorded
in explicit lists, repositories carry an abstract tag-to-commit map and the
list of commits of the default branch.
-/

namespace BobDevtools

/-! ## Channel resolution (`ci/bootstrap.py`, `get_local_channels`) -/

/-- The hard-coded server used by `get_local_channels`. -/
def server : String := "http://www.idiap.ch"

/-- Embedding of `get_local_channels` (`ci/bootstrap.py`, lines 242-260).
`public` stands for `CI_PROJECT_VISIBILITY == 'public'` and `stable` for
`CI_COMMIT_TAG` being set.  The list is assembled exactly as by the Python
`+=` sequence: private beta (if private and not stable), private root (if
private), public beta (if not stable), public root (always). -/
def get_local_channels (pub stable : Bool) : List String :=
  (if pub = false then
      (if stable = false then [server ++ "/private/conda/label/beta"] else [])
        ++ [server ++ "/private/conda"]
    else [])
  ++ (if stable = false then [server ++ "/public/conda/label/beta"] else [])
  ++ [server ++ "/public/conda"]

/-- Channel list installed by the bootstrap main program for the
`beta`/`stable` commands (`ci/bootstrap.py`, line 367):
`get_local_channels() + ['defaults']`. -/
def bootstrap_channels (pub stable : Bool) : List String :=
  get_local_channels pub stable ++ ["defaults"]

/-- Channel list assembled by `base_build` when no CONDARC file exists
(`bob/devtools/scripts/ci.py`, line 296): `['local'] + channels +
['defaults']`, where `channels` is what `get_channels` returned. -/
def base_build_channels (channels : List String) : List String :=
  ["local"] ++ channels ++ ["defaults"]

/-! ## Version tokenization (`distutils.version.LooseVersion`)

`is_stable` parses `tag[1:]` with `LooseVersion`, whose `component_re` is
`(\d+ | [a-z]+ | \.)` under `re.VERBOSE`: the string splits into maximal
digit runs (converted to integers), maximal lowercase-letter runs, literal
dots (then filtered out), and the remaining text between matches, which stays
as string components.  A component that is a string marks a prerelease. -/

/-- One component of a `LooseVersion.version` list: an integer (digit run)
or a string (anything else surviving the filter). -/
inductive LVComp where
  | num (n : Nat) : LVComp
  | str (s : String) : LVComp
deriving DecidableEq, Repr

/-- Is this component a string (i.e. a prerelease marker)?  Mirrors
`isinstance(k, str)` in `is_stable`. -/
def LVComp.isStr : LVComp → Bool
  | .num _ => false
  | .str _ => true

/-- The three kinds of maximal character runs recognized by `component_re`:
digit runs, lowercase-letter runs, and runs of everything else (the text
between regex matches, dots excepted). -/
inductive RunKind where
  | digits : RunKind
  | lowers : RunKind
  | other : RunKind
deriving DecidableEq, Repr

/-- Lowercase ASCII letter, as matched by `[a-z]` (no `re.I` flag). -/
def isLowerAZ (c : Char) : Bool := 'a' ≤ c && c ≤ 'z'

/-- Run kind of a single non-dot character. -/
def kindOf (c : Char) : RunKind :=
  if c.isDigit then .digits else if isLowerAZ c then .lowers else .other

/-- Integer value of a digit run, as `int` computes it. -/
def natOfDigits (cs : List Char) : Nat :=
  cs.foldl (fun a c => 10 * a + (c.toNat - 48)) 0

/-- Turn a finished run (characters in source order) into a component. -/
def mkComp : RunKind → List Char → LVComp
  | .digits, cs => .num (natOfDigits cs)
  | .lowers, cs => .str (String.mk cs)
  | .other, cs => .str (String.mk cs)

/-- Tokenizer core: walks the characters, carrying the current run (kind and
characters in reverse order).  A dot always terminates the current run and is
itself dropped, mirroring the `x != '.'` filter of `LooseVersion.parse`. -/
def looseGo : Option (RunKind × List Char) → List Char → List LVComp
  | none, [] => []
  | some (k, acc), [] => [mkComp k acc.reverse]
  | none, c :: rest =>
      if c = '.' then looseGo none rest
      else looseGo (some (kindOf c, [c])) rest
  | some (k, acc), c :: rest =>
      if c = '.' then mkComp k acc.reverse :: looseGo none rest
      else if kindOf c = k then looseGo (some (k, c :: acc)) rest
      else mkComp k acc.reverse :: looseGo (some (kindOf c, [c])) rest

/-- `LooseVersion(s).version` for a non-empty `s`: the filtered component
list with digit runs converted to integers. -/
def looseVersion (s : String) : List LVComp :=
  looseGo none s.data

/-! ## Stability classification (`bob/devtools/ci.py`) -/

/-- Abstraction of the git repository consulted by `is_master`: the commits
reachable by `repo.iter_commits(rev='master')` and the commit each tag
resolves to (`repo.tag(...).commit`; tags queried by the CI always exist). -/
structure Repo where
  masterCommits : List Nat
  tagCommit : String → Nat

/-- Events emitted through `logger` by `is_stable`, in order. -/
inductive LogEvent where
  | infoTag (package : String) : LogEvent
  | warnPrerelease : LogEvent
  | warnOffMaster : LogEvent
  | infoNoTag : LogEvent
  | infoAssumePrerelease : LogEvent
deriving DecidableEq, Repr

/-- Embedding of `is_master` (`bob/devtools/ci.py`, lines 14-36): with a tag,
membership of the tag's commit in the default branch's commit list; without a
tag, literal comparison of the ref name with `master`. -/
def is_master (refname : String) (tag : Option String) (repo : Repo) : Bool :=
  match tag with
  | some t => repo.masterCommits.contains (repo.tagCommit t)
  | none => refname == "master"

/-- The version components `is_stable` feeds to its prerelease check for a
tag `t`: those of `t` with exactly its first character removed — the
Python `tag[1:]`, whatever that first character is. -/
def stableComponents (t : String) : List LVComp :=
  looseVersion (t.drop 1)

/-- Embedding of `is_stable` (`bob/devtools/ci.py`, lines 39-74).  With a tag,
the tag minus its first character is parsed by `LooseVersion`; any string
component means prerelease (return false before any branch check), otherwise
the result is `is_master`, with a warning when the tag is off the default
branch.  Without a tag the build is a prerelease.  `LooseVersion('')` has no
`version` attribute, so a tag whose `tag[1:]` is empty raises
(`AttributeError`), modelled as `Except.error`.  The returned list records
the `logger` calls made. -/
def is_stable (package refname : String) (tag : Option String) (repo : Repo) :
    Except String (Bool × List LogEvent) :=
  match tag with
  | some t =>
      if (t.drop 1) = "" then
        .error "AttributeError"
      else
        let comps := stableComponents t
        if comps.any LVComp.isStr then
          .ok (false, [.infoTag package, .warnPrerelease])
        else if is_master refname (some t) repo then
          .ok (true, [.infoTag package])
        else
          .ok (false, [.infoTag package, .warnOffMaster])
  | none => .ok (false, [.infoNoTag, .infoAssumePrerelease])

/-- Boolean outcome of `is_stable`, when it returned. -/
def stableBool (e : Except String (Bool × List LogEvent)) : Option Bool :=
  match e with
  | .ok (b, _) => some b
  | .error _ => none

/-! ## Conda package deployment (`bob/devtools/scripts/ci.py`, `dav.py`) -/

/-- Characters after the last slash: a left fold that restarts the
accumulated run at every `/`. -/
def afterLastSlash (cs : List Char) : List Char :=
  cs.foldl (fun acc c => if c = '/' then [] else acc ++ [c]) []

/-- `os.path.basename`: the part of a path after its last slash. -/
def basename (p : String) : String :=
  String.mk (afterLastSlash p.data)

/-- Modelled from the spec: `deploy_conda_package` (module
`bob/devtools/deploy.py`, not among the sources at hand).  Per the
artifact-store contract, `upload(path, channel, overwrite) → success |
AlreadyExists`, and a policy violation — "attempting to upload over an
existing artifact" — is fatal: refused and aborted with an explanatory
message, never silently overwritten.  The remote store is modelled as the
list of published resource names. -/
def deploy_conda_package (overwrite : Bool) (name : String)
    (store : List String) : Except String (List String) :=
  if store.contains name then
    if overwrite then .ok store
    else .error ("resource already exists: " ++ name)
  else .ok (name :: store)

/-- The architectures scanned by `base_deploy` and `deploy`
(`bob/devtools/scripts/ci.py`, lines 66 and 135). -/
def deploy_archs : List String := ["linux-64", "osx-64", "noarch"]

/-- The artifacts `base_deploy` keeps for one architecture
(`bob/devtools/scripts/ci.py`, lines 72-80): every artifact whose basename
starts with the current package's own name is skipped (`continue`). -/
def base_deploy_selected (name : String) (artifacts : List String) :
    List String :=
  artifacts.filter (fun k => !(basename k).startsWith name)

/-- All artifacts `base_deploy` deploys, across its three architectures:
`artifactsIn` gives the glob result for each architecture directory. -/
def base_deploy_deployed (name : String) (artifactsIn : String → List String) :
    List String :=
  deploy_archs.flatMap
    (fun arch => base_deploy_selected name (artifactsIn arch))

/-- Sequential upload of artifacts via `deploy_conda_package`, each call
passing `overwrite=False`, as the `deploy` command does per architecture
(`bob/devtools/scripts/ci.py`, lines 140-143); a refused upload raises and
aborts the loop. -/
def deploy_all (names : List String) (store : List String) :
    Except String (List String) :=
  match names with
  | [] => .ok store
  | b :: rest =>
      match deploy_conda_package false b store with
      | .error e => .error e
      | .ok store2 => deploy_all rest store2

/-- The `deploy` command on one architecture's artifact list
(`bob/devtools/scripts/ci.py`, lines 135-143): every glob result is uploaded
under its basename with `overwrite=False`. -/
def ci_deploy_arch (artifacts : List String) (store : List String) :
    Except String (List String) :=
  deploy_all (artifacts.map basename) store

/-- `base_deploy` on one architecture's artifact list
(`bob/devtools/scripts/ci.py`, lines 72-80): own-name-prefixed artifacts are
skipped, the rest uploaded with `overwrite=False`. -/
def base_deploy_run (name : String) (artifacts : List String)
    (store : List String) : Except String (List String) :=
  deploy_all ((base_deploy_selected name artifacts).map basename) store

/-- The re-deploy performed by `nightlies` for the pending `BDT_BUILD`
tarball (`bob/devtools/scripts/ci.py`, lines 617-622): a single
`deploy_conda_package` call with `overwrite=False`. -/
def nightlies_redeploy (tarball : String) (store : List String) :
    Except String (List String) :=
  deploy_conda_package false (basename tarball) store

/-- Loop body of `dav upload` (`bob/devtools/scripts/dav.py`, lines 257-273):
for each local resource, the destination is `remote + basename(k)`; if that
destination already exists the upload is refused with warnings and skipped
(`continue`); otherwise the resource is uploaded when `execute` is set.
Result: warnings issued and the resulting remote store. -/
def dav_upload_go (execute : Bool) (remote : String) (locals : List String)
    (store : List String) : List String × List String :=
  match locals with
  | [] => ([], store)
  | k :: rest =>
      let actual := remote ++ basename k
      if store.contains actual then
        let (w, s) := dav_upload_go execute remote rest store
        (("resource " ++ actual ++ " already exists") :: w, s)
      else
        dav_upload_go execute remote rest
          (if execute then actual :: store else store)

/-- Embedding of `dav upload` (`bob/devtools/scripts/dav.py`, lines 231-273):
a missing base remote directory aborts with a warning; otherwise each local
resource is processed by `dav_upload_go`. -/
def dav_upload (execute : Bool) (remote : String) (locals : List String)
    (store : List String) : List String × List String :=
  if store.contains remote = false then
    (["base remote directory for upload " ++ remote ++ " does not exist"],
      store)
  else dav_upload_go execute remote locals store

/-! ## PyPI deployment (`bob/devtools/scripts/ci.py`, `pypi`) -/

/-- Refusal message raised by `pypi` for non-public projects (abridged). -/
def pypi_refusal : String :=
  "the repository is not public - CANNOT be published to PyPI"

/-- Embedding of `pypi` (`bob/devtools/scripts/ci.py`, lines 203-242): when
the project visibility is not public the command raises before attempting any
upload; otherwise each package is uploaded unless in dry-run.  Result: the
command outcome and the list of packages actually uploaded. -/
def pypi_run (pub dryRun : Bool) (packages : List String) :
    Except String Unit × List String :=
  if pub = false then (.error pypi_refusal, [])
  else (.ok (), if dryRun then [] else packages)

/-! ## Single-package build (`bob/devtools/scripts/build.py`) -/

/-- Decisions computed by `build` before any side effect: the channel list,
the upload channel and the next build number. -/
structure BuildDecision where
  channels : List String
  uploadChannel : String
  buildNumber : Nat
deriving DecidableEq, Repr

/-- Side effects of `build` that dry-run must suppress:
`conda_build.api.build` and setting the `BDT_BUILD` marker. -/
inductive BuildEffect where
  | condaBuild : BuildEffect
  | setPendingBuild (paths : String) : BuildEffect
deriving DecidableEq, Repr

/-- Embedding of the decision/effect structure of `build` for one recipe
(`bob/devtools/scripts/build.py`, lines 199-309).  The collaborators
`get_channels` (`bob/devtools/bootstrap.py`) and `next_build_number`
(`bob/devtools/build.py`) are not among the sources at hand and are
abstracted as function parameters; `skip` is the outcome of
`should_skip_build` (architecture-unsupported recipes are skipped before any
decision).  Channels, upload channel and build number are computed
unconditionally; `conda_build.api.build` and the setting of `BDT_BUILD`
happen only when `dry_run` is false. -/
def build_run (getChannels : Bool → Bool → List String × String)
    (nextBuild : String → String → Nat)
    (priv stable dryRun skip : Bool) (outBase builtPaths : String) :
    Option BuildDecision × List BuildEffect :=
  if skip then (none, [])
  else
    let (channels, upload) := getChannels (!priv) stable
    let bn := nextBuild upload outBase
    (some ⟨channels, upload, bn⟩,
      if dryRun then [] else [.condaBuild, .setPendingBuild builtPaths])

/-! ## WebDAV tree removal (`bob/devtools/scripts/dav.py`, `rmtree`) -/

/-- Embedding of `dav rmtree` (`bob/devtools/scripts/dav.py`, lines 169-189):
the existence check and removal target are computed regardless of
`--execute`; `cl.clean` runs only when `execute` is set.  Result: whether the
path exists (and would be removed), and the effects performed. -/
def rmtree_run (execute : Bool) (path : String) (store : List String) :
    Bool × List String :=
  if store.contains path = false then (false, [])
  else (true, if execute then ["clean " ++ path] else [])

/-! ## The `base_build` order loop (`bob/devtools/scripts/ci.py`) -/

/-- One entry of the `base_build` order file together with the observable
behaviour of its recipe directory: whether `meta.yaml` exists there, and the
outcome of the (external) builder when invoked on it. -/
structure RecipeEntry where
  name : String
  hasMetaYaml : Bool
  buildResult : Except String Unit

/-- Embedding of the `base_build` per-recipe loop
(`bob/devtools/scripts/ci.py`, lines 322-351): a recipe directory without
`meta.yaml` is logged and skipped (`continue`); otherwise the builder is
invoked and any error it raises propagates immediately, aborting the loop.
Result: the recipes the builder was invoked on (in order) and the final
outcome. -/
def base_build_run : List RecipeEntry → List String × Except String Unit
  | [] => ([], .ok ())
  | r :: rest =>
      if r.hasMetaYaml = false then base_build_run rest
      else
        match r.buildResult with
        | .error e => ([r.name], .error e)
        | .ok _ =>
            let (built, res) := base_build_run rest
            (r.name :: built, res)

/-- Modelled from the spec: the `bdt.raise_on_error` decorator (module
`bob/devtools/scripts/__init__.py`, not among the sources at hand) turns a
raised exception into a non-zero process exit — "Exit codes: 0 success,
non-zero on any unrecovered error". -/
def exit_code : Except String Unit → Nat
  | .ok _ => 0
  | .error _ => 1

/-! ## The `nightlies` pending-build marker (`bob/devtools/scripts/ci.py`) -/

/-- The `BDT_BUILD` update performed by one `build` invocation
(`bob/devtools/scripts/build.py`, lines 298-309): a real (non-dry-run) build
that was not skipped sets `BDT_BUILD` to the built paths; otherwise the
environment is left untouched. -/
def build_sets_pending (dryRun built : Bool) (paths : String)
    (env : Option String) : Option String :=
  if !dryRun && built then some paths else env

/-- One iteration of the `nightlies` loop as far as the `BDT_BUILD` marker is
concerned (`bob/devtools/scripts/ci.py`, lines 595-622): the invoked build
may set the marker; then, only when the marker is set *and*
`CI_COMMIT_REF_NAME == 'master'`, the marker is deleted and the tarball
re-deployed.  Result: the marker left for the next iteration, and whether a
re-deploy was triggered. -/
def nightlies_iter (dryRun built isMasterRef : Bool) (paths : String)
    (env : Option String) : Option String × Bool :=
  let env1 := build_sets_pending dryRun built paths env
  if env1.isSome && isMasterRef then (none, true) else (env1, false)

/-! ## Theorems -/

/-- Helper: the last element of `l ++ [a]` is `a`. -/
theorem getLast?_appendSingleton {α : Type} (l : List α) (a : α) :
    (l ++ [a]).getLast? = some a := by
  rw [List.getLast?_append_cons]; rfl

/-- C1: for every combination of visibility and stability,
`get_local_channels` returns exactly the priority-ordered list: private-beta
channel iff private and not stable, private root iff private, public-beta iff
not stable, public root always — so the beta channels are present iff the
build is a prerelease (not stable). -/
theorem c1_channel_resolver :
    ∀ pub stable : Bool,
      (get_local_channels pub stable =
        (if pub = false ∧ stable = false
          then [server ++ "/private/conda/label/beta"] else [])
        ++ (if pub = false then [server ++ "/private/conda"] else [])
        ++ (if stable = false
            then [server ++ "/public/conda/label/beta"] else [])
        ++ [server ++ "/public/conda"])
      ∧ ((server ++ "/private/conda/label/beta") ∈ get_local_channels pub stable
          ↔ pub = false ∧ stable = false)
      ∧ ((server ++ "/private/conda") ∈ get_local_channels pub stable
          ↔ pub = false)
      ∧ ((server ++ "/public/conda/label/beta") ∈ get_local_channels pub stable
          ↔ stable = false)
      ∧ (server ++ "/public/conda") ∈ get_local_channels pub stable := by
  decide

/-- C9: the channel list constructed for a build — by the bootstrap main
program and by `base_build`'s default path — is non-empty, contains the
`defaults` fallback channel, and has that platform-default fallback appended
last, after the resolver's channels. -/
theorem c9_channel_fallback :
    ∀ (pub stable : Bool) (channels : List String),
      ((bootstrap_channels pub stable).isEmpty = false
        ∧ "defaults" ∈ bootstrap_channels pub stable
        ∧ (bootstrap_channels pub stable).getLast? = some "defaults"
        ∧ bootstrap_channels pub stable
            = get_local_channels pub stable ++ ["defaults"])
      ∧ ((base_build_channels channels).isEmpty = false
        ∧ "defaults" ∈ base_build_channels channels
        ∧ (base_build_channels channels).getLast? = some "defaults") := by
  intro pub stable channels
  refine ⟨⟨?_, ?_, ?_, rfl⟩, ⟨rfl, ?_, ?_⟩⟩
  · revert stable; revert pub; decide
  · revert stable; revert pub; decide
  · revert stable; revert pub; decide
  · simp [base_build_channels]
  · show (("local" :: channels) ++ ["defaults"]).getLast? = some "defaults"
    exact getLast?_appendSingleton _ _

/-- C2: `is_stable` (for every tag whose version part after the prefix
character is non-empty, so `LooseVersion` parses) returns true iff a tag is
set, no parsed version component is a string, and the tag's commit belongs to
the default branch's commit history; a tag with a string component is
classified prerelease regardless of the repository consulted (the check
short-circuits before the branch check); a numeric tag off the default
branch yields false with a warning; no tag yields false. -/
theorem c2_is_stable_iff
    (package refname : String) (tag : Option String) (repo : Repo)
    (hlen : ∀ t, tag = some t → t.drop 1 ≠ "") :
    (stableBool (is_stable package refname tag repo) = some true ↔
      ∃ t, tag = some t
        ∧ (stableComponents t).any LVComp.isStr = false
        ∧ repo.masterCommits.contains (repo.tagCommit t) = true)
    ∧ (∀ t, tag = some t → (stableComponents t).any LVComp.isStr = true →
        ∀ repo2 : Repo, is_stable package refname tag repo2 =
          .ok (false, [.infoTag package, .warnPrerelease]))
    ∧ (∀ t, tag = some t → (stableComponents t).any LVComp.isStr = false →
        repo.masterCommits.contains (repo.tagCommit t) = false →
        is_stable package refname tag repo =
          .ok (false, [.infoTag package, .warnOffMaster]))
    ∧ (tag = none → is_stable package refname tag repo =
        .ok (false, [.infoNoTag, .infoAssumePrerelease])) := by
  cases tag with
  | none =>
      refine ⟨?_, ?_, ?_, fun _ => rfl⟩
      · simp [is_stable, stableBool]
      · intro t ht; exact Option.noConfusion ht
      · intro t ht; exact Option.noConfusion ht
  | some t =>
      have hδ : t.drop 1 ≠ "" := hlen t rfl
      have key : ∀ r : Repo, is_stable package refname (some t) r =
          (if (stableComponents t).any LVComp.isStr then
            .ok (false, [.infoTag package, .warnPrerelease])
          else if r.masterCommits.contains (r.tagCommit t) then
            .ok (true, [.infoTag package])
          else .ok (false, [.infoTag package, .warnOffMaster])) := by
        intro r
        simp only [is_stable]
        rw [if_neg hδ]
        rfl
      refine ⟨⟨?_, ?_⟩, ?_, ?_, ?_⟩
      · intro h
        rw [key repo] at h
        by_cases hpre : (stableComponents t).any LVComp.isStr = true
        · rw [if_pos hpre] at h; simp [stableBool] at h
        · rw [if_neg hpre] at h
          by_cases hm : repo.masterCommits.contains (repo.tagCommit t) = true
          · exact ⟨t, rfl, by simpa using hpre, hm⟩
          · rw [if_neg hm] at h; simp [stableBool] at h
      · rintro ⟨t', ht', hf, hm⟩
        injection ht' with h'
        subst h'
        rw [key repo, if_neg (by simp [hf]), if_pos hm]
        rfl
      · intro t' ht' hpre repo2
        injection ht' with h'
        subst h'
        rw [key repo2, if_pos hpre]
      · intro t' ht' hpre hm
        injection ht' with h'
        subst h'
        rw [key repo, if_neg (by simp [hpre]), if_neg (by rw [hm]; decide)]
      · intro h; exact Option.noConfusion h

/-- Witness for C2: the numeric tag `v2.3.1`, on a repository whose default
branch history contains the tag's commit, is classified stable. -/
theorem c2_is_stable_iff_witness :
    stableBool (is_stable "bob/conda" "master" (some "v2.3.1")
      ⟨[5], fun _ => 5⟩) = some true :=
  (c2_is_stable_iff "bob/conda" "master" (some "v2.3.1") ⟨[5], fun _ => 5⟩
      (by intro t ht; injection ht with h; subst h; decide)).1.mpr
    ⟨"v2.3.1", rfl, by decide, by decide⟩

/-- C3 (counterexample): a successful real (non-dry-run) build in an
iteration whose `CI_COMMIT_REF_NAME` is not `master` leaves the `BDT_BUILD`
marker set, so it is carried over into the following iteration — refuting the
claim that the marker is always consumed and cleared before the next package
is processed. -/
theorem c3_marker_carried_over :
    (nightlies_iter false true false "pkg.tar.bz2" none).1
      = some "pkg.tar.bz2" := rfl

/-- C3 (amended): the pending-build marker is consumed and cleared before the
next iteration whenever the run is on the default branch (`CI_COMMIT_REF_NAME
== 'master'`, the only case in which the marker is read); whenever a
re-deploy fires the marker is cleared; and in dry-run mode it is never set
(an iteration entered with no marker leaves none).  Off the default branch a
marker set by a successful real build persists into the next iteration. -/
theorem c3_marker_lifecycle :
    ∀ (dryRun built isMasterRef : Bool) (paths : String) (env : Option String),
      (nightlies_iter dryRun built true paths env).1 = none
      ∧ ((nightlies_iter dryRun built isMasterRef paths env).2 = true →
          (nightlies_iter dryRun built isMasterRef paths env).1 = none)
      ∧ (nightlies_iter true built isMasterRef paths none).1 = none := by
  intro dryRun built isMasterRef paths env
  cases env <;> cases built <;> cases dryRun <;> cases isMasterRef <;>
    simp [nightlies_iter, build_sets_pending]

/-- C4: in the ordered pipeline over packages `A` then `B`, a tool error
while building `A` propagates immediately — the run ends with that error and
a non-zero exit and `B` is never started — whereas when `A`'s recipe has no
build descriptor (`meta.yaml`), `A` alone is skipped and the pipeline
continues exactly as on `B` alone. -/
theorem c4_pipeline_failure_semantics
    (A B : RecipeEntry) (e : String)
    (hmeta : A.hasMetaYaml = true) (herr : A.buildResult = .error e)
    (hne : B.name ≠ A.name) :
    base_build_run [A, B] = ([A.name], .error e)
    ∧ exit_code (base_build_run [A, B]).2 = 1
    ∧ B.name ∉ (base_build_run [A, B]).1
    ∧ (∀ A' : RecipeEntry, A'.hasMetaYaml = false →
        base_build_run [A', B] = base_build_run [B]) := by
  have h1 : base_build_run [A, B] = ([A.name], .error e) := by
    simp [base_build_run, hmeta, herr]
  refine ⟨h1, by rw [h1]; rfl, ?_, ?_⟩
  · rw [h1]; simpa using hne
  · intro A' hA'
    simp [base_build_run, hA']

/-- Witness for C4 at concrete recipes: `a` fails with a tool error and `b`
is never started; a recipe without descriptor is skipped and the run
continues with `b`. -/
theorem c4_pipeline_failure_semantics_witness :
    base_build_run [⟨"a", true, .error "boom"⟩, ⟨"b", true, .ok ()⟩]
        = (["a"], .error "boom")
    ∧ exit_code (base_build_run
        [⟨"a", true, .error "boom"⟩, ⟨"b", true, .ok ()⟩]).2 = 1
    ∧ "b" ∉ (base_build_run
        [⟨"a", true, .error "boom"⟩, ⟨"b", true, .ok ()⟩]).1
    ∧ (∀ A' : RecipeEntry, A'.hasMetaYaml = false →
        base_build_run [A', ⟨"b", true, .ok ()⟩]
          = base_build_run [⟨"b", true, .ok ()⟩]) :=
  c4_pipeline_failure_semantics ⟨"a", true, .error "boom"⟩
    ⟨"b", true, .ok ()⟩ "boom" rfl rfl (by decide)

/-- C5: every conda upload call site passes the overwrite flag disabled, and
an upload whose destination already holds a resource of the same name is
refused with an explanatory message instead of being replaced: the
per-architecture `deploy`, `base_deploy` (after its own-name filter) and the
`nightlies` re-deploy (literally `deploy_conda_package` with
`overwrite=False`) abort with the error, and `dav upload` warns and leaves
the store unchanged. -/
theorem c5_never_overwrite
    (store : List String) (p : String)
    (hmem : basename p ∈ store) :
    deploy_conda_package false (basename p) store
        = .error ("resource already exists: " ++ basename p)
    ∧ ci_deploy_arch [p] store
        = .error ("resource already exists: " ++ basename p)
    ∧ nightlies_redeploy p store = deploy_conda_package false (basename p) store
    ∧ nightlies_redeploy p store
        = .error ("resource already exists: " ++ basename p)
    ∧ (∀ name : String, (basename p).startsWith name = false →
        base_deploy_run name [p] store
          = .error ("resource already exists: " ++ basename p))
    ∧ (∀ (execute : Bool) (remote : String),
        remote ∈ store →
        (remote ++ basename p) ∈ store →
        dav_upload execute remote [p] store
          = (["resource " ++ (remote ++ basename p) ++ " already exists"],
              store)) := by
  have h0 : deploy_conda_package false (basename p) store
      = .error ("resource already exists: " ++ basename p) := by
    simp [deploy_conda_package, hmem]
  refine ⟨h0, ?_, rfl, h0, ?_, ?_⟩
  · simp [ci_deploy_arch, deploy_all, h0]
  · intro name hname
    simp [base_deploy_run, base_deploy_selected, hname, deploy_all, h0]
  · intro execute remote hdir hrem
    simp [dav_upload, hdir, dav_upload_go, hrem]

/-- Witness for C5: the artifact `x.tar.bz2`, already published, is refused. -/
theorem c5_never_overwrite_witness :
    deploy_conda_package false (basename "dir/x.tar.bz2")
        ["x.tar.bz2", "/r/", "/r/x.tar.bz2"]
      = .error ("resource already exists: " ++ basename "dir/x.tar.bz2") :=
  (c5_never_overwrite ["x.tar.bz2", "/r/", "/r/x.tar.bz2"] "dir/x.tar.bz2"
    (by decide)).1

/-- C6: with dry-run enabled no side-effecting external call is performed —
no conda build, no PyPI upload, no remote deletion — while every decision
computed before the side effect (channel resolution, upload-channel
selection, next-build-number allocation, the PyPI visibility gate, the
removal target) is the same as in a real run on the same inputs. -/
theorem c6_dry_run_same_decisions :
    ∀ (gC : Bool → Bool → List String × String)
      (nB : String → String → Nat)
      (priv stable skip : Bool) (outBase builtPaths : String)
      (pub : Bool) (packages : List String)
      (path : String) (store : List String),
      ((build_run gC nB priv stable true skip outBase builtPaths).2 = []
        ∧ (build_run gC nB priv stable true skip outBase builtPaths).1
          = (build_run gC nB priv stable false skip outBase builtPaths).1)
      ∧ ((pypi_run pub true packages).2 = []
        ∧ (pypi_run pub true packages).1 = (pypi_run pub false packages).1)
      ∧ ((rmtree_run false path store).2 = []
        ∧ (rmtree_run false path store).1 = (rmtree_run true path store).1) := by
  intro gC nB priv stable skip outBase builtPaths pub packages path store
  refine ⟨⟨?_, ?_⟩, ⟨?_, ?_⟩, ⟨?_, ?_⟩⟩
  · cases skip <;> simp [build_run]
  · cases skip <;> simp [build_run]
  · cases pub <;> simp [pypi_run]
  · cases pub <;> simp [pypi_run]
  · by_cases hc : path ∈ store <;> simp [rmtree_run, hc]
  · by_cases hc : path ∈ store <;> simp [rmtree_run, hc]

/-- C7: the PyPI deployment raises and uploads nothing whenever the
project's visibility is not public; any package actually uploaded implies
the visibility was public. -/
theorem c7_pypi_public_only :
    ∀ (pub dryRun : Bool) (packages : List String),
      (pub = false → pypi_run pub dryRun packages = (.error pypi_refusal, []))
      ∧ (∀ k, k ∈ (pypi_run pub dryRun packages).2 → pub = true) := by
  intro pub dryRun packages
  constructor
  · intro h; subst h; rfl
  · intro k hk
    cases pub
    · simp [pypi_run] at hk
    · rfl

/-- C8: in base-dependency deploy mode, across the architectures `linux-64`,
`osx-64` and `noarch`, an artifact is deployed iff it was found for one of
those architectures and its filename does not start with the current
package's own name — own-name-prefixed artifacts are never deployed. -/
theorem c8_base_deploy_own_name_filter :
    ∀ (name : String) (artifactsIn : String → List String) (k : String),
      k ∈ base_deploy_deployed name artifactsIn ↔
        ∃ arch, arch ∈ deploy_archs ∧ k ∈ artifactsIn arch
          ∧ (basename k).startsWith name = false := by
  intro name artifactsIn k
  simp [base_deploy_deployed, base_deploy_selected, List.mem_flatMap,
    List.mem_filter]

/-- C10: for every present tag, the components tested by `is_stable`'s
prerelease check are those of the tag with exactly its first character
removed, whatever that character is; in particular the unprefixed tag
`1.2.0` loses its leading digit — its tested components are those of `.2.0`,
namely `[2, 0]`, not those of `1.2.0`, which are `[1, 2, 0]`. -/
theorem c10_first_character_always_stripped :
    (∀ t : String, stableComponents t = looseVersion (t.drop 1))
    ∧ (∀ (package refname t : String) (repo : Repo),
        is_stable package refname (some t) repo =
          (if t.drop 1 = "" then .error "AttributeError"
          else if (stableComponents t).any LVComp.isStr then
            .ok (false, [.infoTag package, .warnPrerelease])
          else if is_master refname (some t) repo then
            .ok (true, [.infoTag package])
          else .ok (false, [.infoTag package, .warnOffMaster])))
    ∧ stableComponents "1.2.0" = looseVersion ".2.0"
    ∧ stableComponents "1.2.0" = [.num 2, .num 0]
    ∧ looseVersion "1.2.0" = [.num 1, .num 2, .num 0] := by
  refine ⟨fun t => rfl, fun package refname t repo => rfl,
    by decide, by decide, by decide⟩

end BobDevtools
